import Mathlib

/-!
# Verification of the `arbiterx` sandboxed code-execution engine

Shallow embedding of `src/base_code_executor/main.py` (class `BaseCodeExecutor`
and its concrete subclass `CPPCodeExecutor`).  Every external-process
invocation of the Python code is modelled as an event; a `World` supplies the
exit code and captured output of each spawned command, so the control flow of
the Python methods can be followed faithfully.  Exceptions raised by the
Python code are modelled with `Except PyErr`.
-/

namespace Arbiterx

/-- Model of `Constraints` TypedDict (main.py lines 13-18). -/
structure Constraints where
  time_limit : Nat
  memory_limit : Nat
  memory_swap_limit : Nat
  cpu_quota : Nat
  cpu_period : Nat
deriving Repr, DecidableEq

/-- The mutable attributes of a `BaseCodeExecutor` instance
(main.py lines 84-112). -/
structure Session where
  docker_image : String
  user : String
  non_root_user : String
  src : String
  constraints : Constraints
  working_dir_in_container : String
  container_name : String
  disable_compile : Bool
  lazy_container : Bool
  early_exit : Bool
  dry_run : Bool
  container_id : Option String
  is_compiled : Bool
deriving Repr, DecidableEq

/-- Constructor arguments of `BaseCodeExecutor.__init__` (main.py lines 54-67).
`container_name = none` models a call that omits the argument, so the default
parameter value applies. -/
structure Config where
  docker_image : String
  user : String
  non_root_user : String
  src : String
  constraints : Constraints
  working_dir_in_container : String
  container_name : Option String
  disable_compile : Bool
  lazy_container : Bool
  early_exit : Bool
  dry_run : Bool
deriving Repr, DecidableEq

/-- Exceptions the executor can raise.  `base_code_executor/main.py` only ever
raises `ValueError`; `dockerDaemonError` mirrors the class `DockerDaemonError`
declared in `src/arbiterx/exceptions.py` lines 8-12, so that we can state
which exception type is actually raised. -/
inductive PyErr
  | valueError (msg : String)
  | dockerDaemonError (msg : String)
deriving Repr, DecidableEq

/-- Observable actions of the executor: spawning an external process with the
given argv, or pretty-printing a rendered command (the dry-run path and the
console output). -/
inductive Event
  | spawn (argv : List String)
  | printCmd (argv : List String)
deriving Repr, DecidableEq

/-- The 3-tuple `(stdout, stderr, exit_code)` returned by `_run`
(main.py line 529). -/
structure RunResult where
  stdout : String
  stderr : String
  exit_code : Int
deriving Repr, DecidableEq

/-- Environment of a session: behaviour of every external command the engine
may spawn (exit code and captured stdout/stderr keyed by argv), and the
directory listing `os.listdir(f"{src}/input")` used by `run`
(main.py line 644). -/
structure World where
  exitCode : List String → Int
  stdout : List String → String
  stderr : List String → String
  inputListing : List String

instance {e a : Type} [DecidableEq e] [DecidableEq a] : DecidableEq (Except e a)
  | .ok x, .ok y =>
    if h : x = y then .isTrue (by rw [h]) else .isFalse (by intro hc; cases hc; exact h rfl)
  | .ok _, .error _ => .isFalse (by intro hc; cases hc)
  | .error _, .ok _ => .isFalse (by intro hc; cases hc)
  | .error x, .error y =>
    if h : x = y then .isTrue (by rw [h]) else .isFalse (by intro hc; cases hc; exact h rfl)

/-- The Python notion of an ASCII whitespace character (for `str.strip()`). -/
def isSpaceChar (c : Char) : Bool := c = ' ' || c = '\t' || c = '\n' || c = '\r'

/-- Model of `str.strip()` (main.py line 200): remove leading and trailing whitespace. -/
def pyStrip (s : String) : String :=
  String.mk (((s.data.dropWhile isSpaceChar).reverse.dropWhile isSpaceChar).reverse)

/-- External argv entries of a trace. -/
def spawns (evs : List Event) : List (List String) :=
  evs.filterMap fun e =>
    match e with
    | .spawn argv => some argv
    | .printCmd _ => none

/-! ## Command lines built by the source (translated f-string by f-string) -/

/-- Probe argv `["docker", "info"]` (main.py line 132). -/
def docker_info_cmd : List String := ["docker", "info"]

/-- The `docker run` argv built by `_create_container` (main.py lines 167-185). -/
def create_container_cmd (s : Session) : List String :=
  ["docker", "run",
   "--rm",
   "--interactive",
   "--tty",
   "--detach",
   "--mount",
   "type=bind,source=" ++ s.src ++ ",target=" ++ s.working_dir_in_container,
   "--workdir", s.working_dir_in_container,
   "--user", s.user,
   "--cgroupns", "private",
   "--privileged",
   "--memory", toString (s.constraints.memory_limit + 100) ++ "m",
   "--memory-swap",
   toString (s.constraints.memory_limit + s.constraints.memory_swap_limit + 100) ++ "m",
   "--name", s.container_name,
   s.docker_image,
   "sleep", "infinity"]

/-- The `mkdir` argv built by `_create_cgroup` (main.py lines 226-230). -/
def create_cgroup_cmd (s : Session) (identifier : String) : List String :=
  ["docker", "exec", s.container_name, "mkdir", "/sys/fs/cgroup/" ++ identifier]

/-- Mount-table probe of `_prepare_cgroup` (main.py lines 272-279). -/
def mount_check_cmd (s : Session) : List String :=
  ["docker", "exec", s.container_name, "bash", "-c", "mount | grep cgroup"]

/-- The PID-migration / subtree-control script of `_prepare_cgroup`
(main.py lines 315-317); the Python string literal uses backslash line
continuations, so the indentation of the continuation lines is part of the
string. -/
def migrate_script : String :=
  "for pid in $(cat /sys/fs/cgroup/cgroup.procs);                 do echo $pid > /sys/fs/cgroup/parent/cgroup.procs 2> /dev/null; done;                 echo +cpu +memory > /sys/fs/cgroup/cgroup.subtree_control"

/-- The migration argv of `_prepare_cgroup` (main.py lines 310-318). -/
def migrate_cmd (s : Session) : List String :=
  ["docker", "exec", s.container_name, "bash", "-c", migrate_script]

/-- The confirmation read of `_prepare_cgroup` (main.py lines 339-344). -/
def subtree_cat_cmd (s : Session) : List String :=
  ["docker", "exec", s.container_name, "cat", "/sys/fs/cgroup/cgroup.subtree_control"]

/-- The argv built by `_set_limits` (main.py lines 377-386).  Note that the
three `echo` commands and the two `"&&"` strings are separate list elements
after `"bash", "-c"`; only `memory_limit` is converted to bytes
(main.py line 375). -/
def set_limits_cmd (s : Session) (identifier : String) : List String :=
  ["docker", "exec",
   s.container_name,
   "bash", "-c",
   "echo " ++ toString (s.constraints.memory_limit * 1024 * 1024) ++
     " > /sys/fs/cgroup/" ++ identifier ++ "/memory.max",
   "&&",
   "echo " ++ toString s.constraints.memory_swap_limit ++
     " > /sys/fs/cgroup/" ++ identifier ++ "/memory.swap.max",
   "&&",
   "echo \"" ++ toString s.constraints.cpu_quota ++ " " ++
     toString s.constraints.cpu_period ++ "\" > /sys/fs/cgroup/" ++
     identifier ++ "/cpu.max"]

/-- The argv built by `_compile` (main.py lines 447-453); `compileCommand` is
the string returned by the abstract hook `get_compile_command`. -/
def compile_cmd (s : Session) (compileCommand : String) : List String :=
  ["docker", "exec",
   "--workdir", s.working_dir_in_container,
   s.container_name, "bash", "-c",
   "su - " ++ s.non_root_user ++ " -c \x27" ++ compileCommand ++ "\x27"]

/-- Model of `memory.peak` read (main.py lines 485-491 and 587-593). -/
def memory_peak_cmd (s : Session) (identifier : String) : List String :=
  ["docker", "exec", s.container_name, "bash", "-c",
   "cat /sys/fs/cgroup/" ++ identifier ++ "/memory.peak"]

/-- Model of `memory.events` read (main.py lines 503-509 and 598-604). -/
def memory_events_cmd (s : Session) (identifier : String) : List String :=
  ["docker", "exec", s.container_name, "bash", "-c",
   "cat /sys/fs/cgroup/" ++ identifier ++ "/memory.events"]

/-- Model of `cpu.stat` read (main.py lines 514-520 and 609-615). -/
def cpu_stat_cmd (s : Session) (identifier : String) : List String :=
  ["docker", "exec", s.container_name, "bash", "-c",
   "cat /sys/fs/cgroup/" ++ identifier ++ "/cpu.stat"]

/-- The in-container shell script composed by `_run` (main.py lines 549-562):
input-file default, fallback-timeout default (Python `if not timeout` treats
both `None` and `0` as unset), the `timeout … < input` wrapper, and the
`cgroup.procs` join followed by the `su` drop. -/
def run_script (s : Session) (runCommand : String) (test_case : Nat)
    (input_file : Option String) (timeout : Option Nat) : String :=
  let _input_file :=
    input_file.getD
      (s.working_dir_in_container ++ "/input/input" ++ toString test_case ++ ".txt")
  let t : Nat :=
    match timeout with
    | none => s.constraints.time_limit * 5
    | some 0 => s.constraints.time_limit * 5
    | some n => n
  let cmd := "timeout " ++ toString t ++ " " ++ runCommand ++ " < " ++ _input_file
  "echo $$ > /sys/fs/cgroup/test" ++ toString test_case ++ "/cgroup.procs && su - " ++
    s.non_root_user ++ " -c \x27" ++ cmd ++ "\x27"

/-- The `docker exec` argv built by `_run` (main.py lines 558-563). -/
def run_docker_cmd (s : Session) (runCommand : String) (test_case : Nat)
    (input_file : Option String) (timeout : Option Nat) : List String :=
  ["docker", "exec",
   "--workdir", s.working_dir_in_container,
   s.container_name, "bash", "-c",
   run_script s runCommand test_case input_file timeout]

/-- Model of `CPPCodeExecutor.get_compile_command` (main.py lines 653-654). -/
def cpp_get_compile_command (src : String) : String :=
  "g++ -o " ++ src ++ "/a.out " ++ src ++ "/main.cpp"

/-- Model of `CPPCodeExecutor.get_run_command` (main.py lines 656-657). -/
def cpp_get_run_command (src : String) : String := src ++ "/a.out"

/-! ## The operations -/

/-- Model of `_check_docker_daemon` (main.py lines 128-152).  Called from `__init__`
before any attribute other than `dry_run` is set.  On a nonzero probe it
raises `ValueError("Docker daemon is not running")`. -/
def _check_docker_daemon (dry_run : Bool) (w : World) :
    Except PyErr Unit × List Event :=
  if dry_run then (.ok (), [.printCmd docker_info_cmd])
  else if w.exitCode docker_info_cmd = 0 then (.ok (), [.spawn docker_info_cmd])
  else (.error (.valueError "Docker daemon is not running"), [.spawn docker_info_cmd])

/-- Attribute assignment of `__init__` (main.py lines 84-109).  The default
value of the `container_name` parameter is `uuid.uuid4().hex` **evaluated once
when the class body is executed** (main.py line 62); `defTok` stands for that
per-process value, shared by every construction that omits the argument. -/
def mkSession (defTok : String) (cfg : Config) : Session :=
  { docker_image := cfg.docker_image
    user := cfg.user
    non_root_user := cfg.non_root_user
    src := cfg.src
    constraints := cfg.constraints
    working_dir_in_container := cfg.working_dir_in_container
    container_name := cfg.container_name.getD defTok
    disable_compile := cfg.disable_compile
    lazy_container := cfg.lazy_container
    early_exit := cfg.early_exit
    dry_run := cfg.dry_run
    container_id := none
    is_compiled := false }

/-- Model of `_create_container` (main.py lines 163-204): on success records
`container_id := proc.stdout.strip()`, on failure raises
`ValueError("Error creating container")`. -/
def _create_container (s : Session) (w : World) :
    Except PyErr Session × List Event :=
  if s.dry_run then (.ok s, [.printCmd (create_container_cmd s)])
  else if w.exitCode (create_container_cmd s) = 0 then
    (.ok { s with container_id := some (pyStrip (w.stdout (create_container_cmd s))) },
     [.spawn (create_container_cmd s)])
  else (.error (.valueError "Error creating container"),
        [.spawn (create_container_cmd s)])

/-- Model of `__init__` (main.py lines 54-112): daemon probe, attribute assignment and
— unless `lazy_container` — eager container creation. -/
def initSession (defTok : String) (cfg : Config) (w : World) :
    Except PyErr Session × List Event :=
  match _check_docker_daemon cfg.dry_run w with
  | (.error e, ev) => (.error e, ev)
  | (.ok _, ev0) =>
    let s := mkSession defTok cfg
    if s.lazy_container then (.ok s, ev0)
    else
      match _create_container s w with
      | (.error e, ev1) => (.error e, ev0 ++ ev1)
      | (.ok s1, ev1) => (.ok s1, ev0 ++ ev1)

/-- Model of `_cleanup_container` (main.py lines 206-221).  The command is run with
`subprocess.run` without `check`, so a nonzero `docker stop` never raises; if
`container_id` was never set the spawn is skipped. -/
def _cleanup_container (s : Session) (_w : World) :
    Except PyErr Unit × List Event :=
  if s.dry_run then
    (.ok (), [.printCmd ["docker", "stop", "<container_id>"]])
  else
    match s.container_id with
    | some cid => (.ok (), [.spawn ["docker", "stop", cid]])
    | none => (.ok (), [])

/-- Model of `__exit__` (main.py lines 160-161): always delegates to
`_cleanup_container`, whatever exception information is passed in. -/
def _exit (s : Session) (w : World) (_exc : Option PyErr) :
    Except PyErr Unit × List Event :=
  _cleanup_container s w

/-- Model of `_create_cgroup` (main.py lines 223-255): `mkdir` of the cgroup directory;
nonzero exit raises `ValueError`. -/
def _create_cgroup (s : Session) (identifier : String) (w : World) :
    Except PyErr Unit × List Event :=
  if s.dry_run then (.ok (), [.printCmd (create_cgroup_cmd s identifier)])
  else if w.exitCode (create_cgroup_cmd s identifier) = 0 then
    (.ok (), [.spawn (create_cgroup_cmd s identifier)])
  else (.error (.valueError ("Error creating cgroup for " ++ identifier)),
        [.spawn (create_cgroup_cmd s identifier)])

/-- Substring test (`"cgroup2" in stdout`, main.py line 296). -/
def hasSub (pat : List Char) : List Char → Bool
  | [] => pat.isEmpty
  | c :: cs => pat.isPrefixOf (c :: cs) || hasSub pat cs

/-- Model of `_prepare_cgroup` (main.py lines 257-361): mount-table probe (in dry-run
mode the method returns after printing this first command), `cgroup2` check,
parent creation via `_create_cgroup("parent")`, PID migration plus
subtree-control write, and on success a confirmation `cat`. -/
def _prepare_cgroup (s : Session) (w : World) : Except PyErr Unit × List Event :=
  if s.dry_run then (.ok (), [.printCmd (mount_check_cmd s)])
  else if hasSub "cgroup2".data (w.stdout (mount_check_cmd s)).data then
    match _create_cgroup s "parent" w with
    | (.error e, ev) => (.error e, .spawn (mount_check_cmd s) :: ev)
    | (.ok _, ev1) =>
      if w.exitCode (migrate_cmd s) = 0 then
        (.ok (),
         .spawn (mount_check_cmd s) :: ev1 ++
           [.spawn (migrate_cmd s), .spawn (subtree_cat_cmd s)])
      else
        (.error (.valueError "Error preparing cgroup"),
         .spawn (mount_check_cmd s) :: ev1 ++ [.spawn (migrate_cmd s)])
  else (.error (.valueError "Cgroup does not exist"), [.spawn (mount_check_cmd s)])

/-- Model of `_set_limits` (main.py lines 363-411): one spawn of `set_limits_cmd`;
nonzero exit raises `ValueError`. -/
def _set_limits (s : Session) (identifier : String) (w : World) :
    Except PyErr Unit × List Event :=
  if s.dry_run then (.ok (), [.printCmd (set_limits_cmd s identifier)])
  else if w.exitCode (set_limits_cmd s identifier) = 0 then
    (.ok (), [.spawn (set_limits_cmd s identifier)])
  else (.error (.valueError ("Error setting limits for " ++ identifier)),
        [.spawn (set_limits_cmd s identifier)])

/-- Model of `_compile` (main.py lines 435-476): raises if compilation is disabled,
otherwise spawns the compile command; on exit code `0` it sets
`_is_compiled`, on nonzero exit it only logs and prints — **no exception is
raised and no state records the failure beyond `is_compiled` staying
`false`**. -/
def _compile (s : Session) (compileCommand : String) (w : World) :
    Except PyErr Session × List Event :=
  if s.disable_compile then
    (.error (.valueError "Compilation is disabled"), [])
  else if s.dry_run then (.ok s, [.printCmd (compile_cmd s compileCommand)])
  else if w.exitCode (compile_cmd s compileCommand) = 0 then
    (.ok { s with is_compiled := true }, [.spawn (compile_cmd s compileCommand)])
  else (.ok s, [.spawn (compile_cmd s compileCommand)])

/-- Model of `__enter__` (main.py lines 154-158): compile first (unless disabled), then
prepare the cgroup hierarchy. -/
def _enter (s : Session) (compileCommand : String) (w : World) :
    Except PyErr Session × List Event :=
  let step1 : Except PyErr Session × List Event :=
    if s.disable_compile then (.ok s, []) else _compile s compileCommand w
  match step1 with
  | (.error e, ev) => (.error e, ev)
  | (.ok s1, ev1) =>
    match _prepare_cgroup s1 w with
    | (.error e, ev2) => (.error e, ev1 ++ ev2)
    | (.ok _, ev2) => (.ok s1, ev1 ++ ev2)

/-- Model of `_get_stats` (main.py lines 478-523): in dry-run mode prints the first
command and returns; otherwise three `subprocess.run` reads, none of which
can raise. -/
def _get_stats (s : Session) (identifier : String) (_w : World) : List Event :=
  if s.dry_run then [.printCmd (memory_peak_cmd s identifier)]
  else
    [.spawn (memory_peak_cmd s identifier),
     .spawn (memory_events_cmd s identifier),
     .spawn (cpu_stat_cmd s identifier)]

/-- Model of `_run` (main.py lines 525-620): create the per-test cgroup, set its
limits, spawn the composed command (or return the placeholder tuple
`("<stdout>", "<stderr>", 0)` in dry-run mode, line 571), then read the three
per-test counter files. -/
def _run (s : Session) (runCommand : String) (test_case : Nat)
    (input_file : Option String) (timeout : Option Nat) (w : World) :
    Except PyErr RunResult × List Event :=
  match _create_cgroup s ("test" ++ toString test_case) w with
  | (.error e, ev) => (.error e, ev)
  | (.ok _, ev1) =>
    match _set_limits s ("test" ++ toString test_case) w with
    | (.error e, ev2) => (.error e, ev1 ++ ev2)
    | (.ok _, ev2) =>
      let dc := run_docker_cmd s runCommand test_case input_file timeout
      if s.dry_run then
        (.ok ⟨"<stdout>", "<stderr>", 0⟩, ev1 ++ ev2 ++ [.printCmd dc])
      else
        (.ok ⟨w.stdout dc, w.stderr dc, w.exitCode dc⟩,
         ev1 ++ ev2 ++
           [.spawn dc,
            .spawn (memory_peak_cmd s ("test" ++ toString test_case)),
            .spawn (memory_events_cmd s ("test" ++ toString test_case)),
            .spawn (cpu_stat_cmd s ("test" ++ toString test_case))])

/-- The loop body sequence of `run` (main.py lines 646-649) over a list of
test indices: each index is passed to `_run` together with the input path
`f"{working_dir_in_container}/input/{input_prefix}{i}.txt"`.  An exception
inside `_run` aborts the iteration. -/
def runFrom (s : Session) (runCommand : String) ( input_prefix : String)
    (timeout : Option Nat) (w : World) :
    List Nat → Except PyErr (List RunResult) × List Event
  | [] => (.ok [], [])
  | i :: rest =>
    let fi := s.working_dir_in_container ++ "/input/" ++ input_prefix ++
      toString i ++ ".txt"
    match _run s runCommand i (some fi) timeout w with
    | (.error e, ev) => (.error e, ev)
    | (.ok r, ev) =>
      match runFrom s runCommand input_prefix timeout w rest with
      | (.error e, ev2) => (.error e, ev ++ ev2)
      | (.ok rs, ev2) => (.ok (r :: rs), ev ++ ev2)

/-- Model of `run` (main.py lines 622-649): `tests = os.listdir(f"{src}/input")`, then
`for i in range(1, len(tests) + 1): yield self._run(i, …)`. -/
def run (s : Session) (runCommand : String) ( input_prefix : String)
    (timeout : Option Nat) (w : World) :
    Except PyErr (List RunResult) × List Event :=
  runFrom s runCommand input_prefix timeout w
    (List.range' 1 w.inputListing.length)

/-- A whole `with …CodeExecutor(…) as ex: for r in ex.run(…)` scope
(main.py lines 669-690): construction, `__enter__`, full iteration of `run`,
then `__exit__` — which Python skips when `__enter__` itself raised. -/
def sessionEvents (defTok : String) (cfg : Config)
    (compileCommand runCommand : String) ( input_prefix : String)
    (timeout : Option Nat) (w : World) : List Event :=
  match initSession defTok cfg w with
  | (.error _, ev) => ev
  | (.ok s, ev0) =>
    match _enter s compileCommand w with
    | (.error _, ev1) => ev0 ++ ev1
    | (.ok s1, ev1) =>
      match run s1 runCommand input_prefix timeout w with
      | (.error e, ev2) => ev0 ++ ev1 ++ ev2 ++ (_exit s1 w (some e)).2
      | (.ok _, ev2) => ev0 ++ ev1 ++ ev2 ++ (_exit s1 w none).2

/-! ## Semantics of the spawned commands

The engine talks to the container exclusively through `docker exec` argv
lists.  The following functions give meaning to those lists: which script a
`bash -c` invocation actually executes, which `echo … > file` writes a script
performs, and how `mkdir`/`rmdir` argv change the set of cgroup
directories. -/

/-- The script executed by a `docker exec … bash -c …` argv.  `bash -c`
executes exactly the one argument following `-c`; any further argv entries
become the positional parameters `$0`, `$1`, … of that script and are not
themselves executed. -/
def dockerExecBashScript : List String → Option String
  | "docker" :: "exec" :: "--workdir" :: _ :: _ :: "bash" :: "-c" :: script :: _ =>
    some script
  | "docker" :: "exec" :: _ :: "bash" :: "-c" :: script :: _ => some script
  | _ => none

/-- Split a character list at every occurrence of `" && "`.  Fuel-driven so
that it reduces by `rfl`/`decide`; `splitAmp` supplies enough fuel. -/
def splitAmpAux : Nat → List Char → List Char → List (List Char)
  | _, acc, [] => [acc.reverse]
  | 0, acc, rest => [acc.reverse ++ rest]
  | fuel + 1, acc, c :: cs =>
    if [' ', '&', '&', ' '].isPrefixOf (c :: cs) then
      acc.reverse :: splitAmpAux fuel [] (cs.drop 3)
    else splitAmpAux fuel (c :: acc) cs

/-- The `" && "`-separated commands of a shell script. -/
def splitAmp (l : List Char) : List (List Char) := splitAmpAux l.length [] l

/-- Split a character list at every occurrence of `" > "`. -/
def splitRedirAux : Nat → List Char → List Char → List (List Char)
  | _, acc, [] => [acc.reverse]
  | 0, acc, rest => [acc.reverse ++ rest]
  | fuel + 1, acc, c :: cs =>
    if [' ', '>', ' '].isPrefixOf (c :: cs) then
      acc.reverse :: splitRedirAux fuel [] (cs.drop 2)
    else splitRedirAux fuel (c :: acc) cs

/-- The `" > "`-separated pieces of a shell command. -/
def splitRedir (l : List Char) : List (List Char) := splitRedirAux l.length [] l

/-- A file write performed by an `echo <value> > <path>` shell command. -/
structure FileWrite where
  value : String
  path : String
deriving Repr, DecidableEq

/-- Recognise a single `echo <value> > <path>` command. -/
def parseEchoWrite (cmd : List Char) : Option FileWrite :=
  if ['e', 'c', 'h', 'o', ' '].isPrefixOf cmd then
    match splitRedir (cmd.drop 5) with
    | [v, p] => some ⟨String.mk v, String.mk p⟩
    | _ => none
  else none

/-- The file writes performed by a script made of `echo`-redirect commands
joined by `" && "`. -/
def scriptWrites (script : String) : List FileWrite :=
  (splitAmp script.data).filterMap parseEchoWrite

/-- The file writes a `docker exec … bash -c …` argv performs when spawned. -/
def cmdWrites (argv : List String) : List FileWrite :=
  match dockerExecBashScript argv with
  | some script => scriptWrites script
  | none => []

/-- Effect of one spawned argv on the set of cgroup directories inside the
container: the argv shape the engine uses for these is
`["docker", "exec", <container>, <verb>, <path>]`. -/
def applyCgroupCmd (dirs : List String) (argv : List String) : List String :=
  match argv with
  | ["docker", "exec", _, "mkdir", path] => dirs ++ [path]
  | ["docker", "exec", _, "rmdir", path] => dirs.filter (fun p => p != path)
  | _ => dirs

/-- Cgroup directories present after a trace has been spawned. -/
def cgroupDirsAfter (evs : List Event) : List String :=
  (spawns evs).foldl applyCgroupCmd []

/-- Does an event spawn a cgroup-removal command?  The single-file-system
commands of the engine all have the argv shape
`["docker", "exec", <container>, <verb>, <path>]`; removal means the verb is
`rmdir`.  (The spine is matched first so the test reduces even when the
string fields of the session are symbolic.) -/
def isRmdirSpawn (e : Event) : Bool :=
  match e with
  | .spawn argv =>
    match argv with
    | [a, b, _, d, _] => a == "docker" && b == "exec" && d == "rmdir"
    | _ => false
  | .printCmd _ => false

/-- Is the raised exception the `DockerDaemonError` type declared in
`src/arbiterx/exceptions.py`? -/
def isDockerDaemonError : Except PyErr Session → Bool
  | .error (.dockerDaemonError _) => true
  | _ => false

/-! ## Phase-level view of a session

`C6` is about the order of the coarse setup steps, so we also record the
method-invocation order of `__init__` (main.py lines 95 and 111-112),
`__enter__` (lines 154-158), `run` and `__exit__` as a phase list. -/

/-- Coarse execution phases of a session. -/
inductive Phase
  | checkDaemon
  | createContainer
  | compilePhase
  | prepareCgroup
  | runTest (i : Nat)
  | stopContainer
deriving Repr, DecidableEq, BEq

/-- Phases of `__init__`: the daemon probe (main.py line 95), then — unless
`lazy_container` — container creation (lines 111-112). -/
def initPhases (s : Session) : List Phase :=
  [Phase.checkDaemon] ++ (if s.lazy_container then [] else [Phase.createContainer])

/-- Phases of `__enter__` (main.py lines 154-158): compilation first (unless
disabled), then cgroup preparation. -/
def enterPhases (s : Session) : List Phase :=
  (if s.disable_compile then [] else [Phase.compilePhase]) ++ [Phase.prepareCgroup]

/-- Phases of `run` (main.py lines 644-649): one `runTest i` per
`i ∈ 1..n` in order. -/
def runPhases (n : Nat) : List Phase :=
  (List.range' 1 n).map Phase.runTest

/-- The phase sequence of a whole session scope with `n` test files. -/
def sessionPhases (s : Session) (n : Nat) : List Phase :=
  initPhases s ++ enterPhases s ++ runPhases n ++ [Phase.stopContainer]

/-! ## Spec-side command shapes (for the refinement claims)

These definitions follow the **words of the spec** (spec.md §4.6 step 3), to be
compared against the strings the source builds. -/

/-- Modelled from the spec: "write the PID of the shell itself into
`/sys/fs/cgroup/test<i>/cgroup.procs`". -/
def specPidWrite (i : Nat) : String :=
  "echo $$ > /sys/fs/cgroup/test" ++ toString i ++ "/cgroup.procs"

/-- Modelled from the spec: "drop to the non-root user" and run a command. -/
def specDropPriv (user cmd : String) : String :=
  "su - " ++ user ++ " -c \x27" ++ cmd ++ "\x27"

/-- Modelled from the spec: "`timeout <T> R < <input_file>`". -/
def specTimeoutWrap (t : Nat) (runCommand file : String) : String :=
  "timeout " ++ toString t ++ " " ++ runCommand ++ " < " ++ file

/-! ## Concrete fixtures

The base configuration mirrors the `__main__` block of the source
(main.py lines 660-681). -/

/-- The constraints used in the `__main__` block of the source (main.py lines 661-668). -/
def exConstraints : Constraints :=
  { time_limit := 2
    memory_limit := 10
    memory_swap_limit := 0
    cpu_quota := 1000000
    cpu_period := 1000000 }

/-- The executor configuration used in the `__main__` block of the source
(main.py lines 669-681). -/
def exConfig : Config :=
  { docker_image := "cpp_image:v1"
    user := "root"
    non_root_user := "partho"
    src := "/data/submission12"
    constraints := exConstraints
    working_dir_in_container := "/app"
    container_name := some "test"
    disable_compile := false
    lazy_container := false
    early_exit := false
    dry_run := false }

/-- The session right after attribute assignment. -/
def exSession0 : Session := mkSession "0123abcd" exConfig

/-- The session once the container has been created with id `cid123`. -/
def exSession : Session := { exSession0 with container_id := some "cid123" }

/-- The `CPPCodeExecutor` compile command at `working_dir_in_container = /app`. -/
def exCompile : String := cpp_get_compile_command "/app"

/-- The `CPPCodeExecutor` run command at `working_dir_in_container = /app`. -/
def exRun : String := cpp_get_run_command "/app"

/-- A world in which every external command succeeds, the container id comes
back as `cid123`, the mount table shows `cgroup2`, and the input directory
has two files. -/
def wOK : World :=
  { exitCode := fun _ => 0
    stdout := fun argv =>
      if argv = create_container_cmd exSession0 then "cid123\n"
      else if argv = mount_check_cmd exSession0 then
        "cgroup2 on /sys/fs/cgroup type cgroup2 (rw)"
      else ""
    stderr := fun _ => ""
    inputListing := ["input1.txt", "input2.txt"] }

/-- Like `wOK` but the compile command exits with code `1`. -/
def wCF : World :=
  { wOK with
    exitCode := fun argv => if argv = compile_cmd exSession0 exCompile then 1 else 0 }

/-- A world in which every probe fails (`docker info` exits `1`). -/
def wDown : World :=
  { exitCode := fun _ => 1
    stdout := fun _ => ""
    stderr := fun _ => ""
    inputListing := [] }

/-- Like `exConstraints` but with a nonzero swap allowance, to make the
swap-limit handling of `_set_limits` observable. -/
def c1Constraints : Constraints :=
  { time_limit := 2
    memory_limit := 10
    memory_swap_limit := 64
    cpu_quota := 1000000
    cpu_period := 1000000 }

/-- Model of `exSession` with the `c1Constraints`. -/
def c1Session : Session := { exSession with constraints := c1Constraints }

/-- Model of `exSession` with `early_exit := true`. -/
def exSessionEE : Session := { exSession with early_exit := true }

/-- Like `wOK` but the run command of test 1 exits with code `1`. -/
def wT1 : World :=
  { wOK with
    exitCode := fun argv =>
      if argv = run_docker_cmd exSessionEE exRun 1 (some "/app/input/input1.txt") none
      then 1 else 0 }

/-! ## Claim theorems -/

/-- C1: evaluation of the command `_set_limits` builds at identifier `test1` with
`memory_limit = 10 MB`, `memory_swap_limit = 64 MB`, `cpu_quota = cpu_period
= 1000000`.  Because the two `"&&"` strings and the later `echo` commands are
separate argv entries after `bash -c`, the shell executes only the first
`echo`: the one write performed is `10485760 → memory.max`.  The
`memory.swap.max` echo (which moreover carries the raw megabyte value `64`,
not `64 × 1048576 = 67108864` bytes) and the `cpu.max` echo sit at argv
positions 7 and 9, where they are mere positional parameters; neither file
is ever written. -/
theorem set_limits_writes_only_memory_max :
    cmdWrites (set_limits_cmd c1Session "test1") =
      [⟨"10485760", "/sys/fs/cgroup/test1/memory.max"⟩] ∧
    (set_limits_cmd c1Session "test1").get? 7 =
      some "echo 64 > /sys/fs/cgroup/test1/memory.swap.max" ∧
    (set_limits_cmd c1Session "test1").get? 9 =
      some "echo \"1000000 1000000\" > /sys/fs/cgroup/test1/cpu.max" ∧
    ¬ ((⟨"67108864", "/sys/fs/cgroup/test1/memory.swap.max"⟩ : FileWrite) ∈
        cmdWrites (set_limits_cmd c1Session "test1")) ∧
    ¬ ((⟨"1000000 1000000", "/sys/fs/cgroup/test1/cpu.max"⟩ : FileWrite) ∈
        cmdWrites (set_limits_cmd c1Session "test1")) := by
  refine ⟨rfl, rfl, rfl, by decide, by decide⟩

/-- C2: with the compile command exiting `1` (world `wCF`), `_compile`
returns normally with `is_compiled` still `false`, `__enter__` succeeds, and
`run` nevertheless executes every test: it yields a result for both input
files and its trace spawns the user-program command of test 1 and of
test 2.  A failed compilation therefore does not prevent any test from
running. -/
theorem compile_failure_does_not_prevent_tests :
    (_compile exSession exCompile wCF).1 = .ok exSession ∧
    exSession.is_compiled = false ∧
    (_enter exSession exCompile wCF).1 = .ok exSession ∧
    (run exSession exRun "input" none wCF).1 =
      .ok [⟨"", "", 0⟩, ⟨"", "", 0⟩] ∧
    (spawns (run exSession exRun "input" none wCF).2).contains
      (run_docker_cmd exSession exRun 1 (some "/app/input/input1.txt") none) = true ∧
    (spawns (run exSession exRun "input" none wCF).2).contains
      (run_docker_cmd exSession exRun 2 (some "/app/input/input2.txt") none) = true := by
  refine ⟨rfl, rfl, rfl, rfl, by decide, by decide⟩

/-- Helper for C3: `runFrom` never consults `early_exit`. -/
theorem runFrom_ignores_early_exit (s : Session) (rc ip : String) (t : Option Nat)
    (w : World) (b : Bool) :
    ∀ l, runFrom { s with early_exit := b } rc ip t w l = runFrom s rc ip t w l
  | [] => rfl
  | i :: rest => by
    have ih := runFrom_ignores_early_exit s rc ip t w b rest
    unfold runFrom
    rw [ih]
    rfl

/-- C3: the `early_exit` flag is stored by `__init__` but never read again:
`run` produces identical results and traces whatever its value.  Concretely,
with `early_exit = true` and the run command of test 1 exiting `1` (a failing
test), iteration does not stop: `run` still yields two results, the failing
one first and another one after it. -/
theorem early_exit_is_ignored :
    (∀ (s : Session) (rc ip : String) (t : Option Nat) (w : World) (b : Bool),
        run { s with early_exit := b } rc ip t w = run s rc ip t w) ∧
    exSessionEE.early_exit = true ∧
    (run exSessionEE exRun "input" none wT1).1 =
      .ok [⟨"", "", 1⟩, ⟨"", "", 0⟩] := by
  refine ⟨fun s rc ip t w b => ?_, rfl, by decide⟩
  unfold run
  exact runFrom_ignores_early_exit s rc ip t w b _

/-- C6 counterexample: in the concrete session (container created eagerly,
compilation enabled, one test) the phase order is container creation, then
**compilation**, then cgroup preparation — `__enter__` (main.py lines
154-158) calls `_compile` before `_prepare_cgroup` — so cgroup preparation
does not happen before the compile stage. -/
theorem prepare_not_before_compile :
    sessionPhases exSession 1 =
      [Phase.checkDaemon, Phase.createContainer, Phase.compilePhase,
       Phase.prepareCgroup, Phase.runTest 1, Phase.stopContainer] ∧
    ¬ (List.indexOf Phase.prepareCgroup (sessionPhases exSession 1) <
        List.indexOf Phase.compilePhase (sessionPhases exSession 1)) := by
  refine ⟨rfl, by decide⟩

/-- C6 amended: for every eagerly-created, compile-enabled session the setup
order is container creation, then compilation, then cgroup preparation, then
the per-test steps, then container stop. -/
theorem setup_order_compile_then_prepare (s : Session) (n : Nat)
    (h1 : s.lazy_container = false) (h2 : s.disable_compile = false) :
    sessionPhases s n =
      [Phase.checkDaemon, Phase.createContainer, Phase.compilePhase,
       Phase.prepareCgroup] ++ runPhases n ++ [Phase.stopContainer] := by
  simp [sessionPhases, initPhases, enterPhases, h1, h2]

/-- Witness for the amended C6 theorem at the concrete session and two
tests. -/
theorem setup_order_witness :
    sessionPhases exSession 2 =
      [Phase.checkDaemon, Phase.createContainer, Phase.compilePhase,
       Phase.prepareCgroup] ++ runPhases 2 ++ [Phase.stopContainer] :=
  setup_order_compile_then_prepare exSession 2 rfl rfl

/-- C7: `__exit__` always runs the container teardown and the teardown never
raises, whatever exception information arrives and whatever the `docker stop`
exit status in the world is; when `container_id` was never set no process is
spawned at all, and when it is set the only spawn is `docker stop <id>`. -/
theorem scope_exit_stop_best_effort (s : Session) (w : World) (exc : Option PyErr) :
    (_exit s w exc).1 = .ok () ∧
    (s.dry_run = false → s.container_id = none → (_exit s w exc).2 = []) ∧
    (∀ cid, s.dry_run = false → s.container_id = some cid →
        (_exit s w exc).2 = [.spawn ["docker", "stop", cid]]) := by
  unfold _exit _cleanup_container
  refine ⟨?_, ?_, ?_⟩
  · cases s.dry_run with
    | false =>
      cases s.container_id with
      | none => rfl
      | some cid => rfl
    | true => rfl
  · intro hd hc; simp [hd, hc]
  · intro cid hd hc; simp [hd, hc]

/-- Witness for C7: the teardown result and trace at a session without a
container id and at one with id `cid123`. -/
theorem scope_exit_witness :
    (_exit exSession0 wOK none).1 = .ok () ∧
    (_exit exSession0 wOK none).2 = [] ∧
    (_exit exSession wOK none).2 = [.spawn ["docker", "stop", "cid123"]] :=
  ⟨(scope_exit_stop_best_effort exSession0 wOK none).1,
   (scope_exit_stop_best_effort exSession0 wOK none).2.1 rfl rfl,
   (scope_exit_stop_best_effort exSession wOK none).2.2 "cid123" rfl rfl⟩

/-- C8 counterexample: with the `docker info` probe exiting `1` and
`dry_run = false`, construction fails with `ValueError("Docker daemon is not
running")` (main.py line 148) — not with the `DockerDaemonError` type
declared in `src/arbiterx/exceptions.py`. -/
theorem daemon_error_is_not_dockerdaemonerror :
    (initSession "0123abcd" exConfig wDown).1 =
      .error (.valueError "Docker daemon is not running") ∧
    isDockerDaemonError (initSession "0123abcd" exConfig wDown).1 = false := by
  refine ⟨rfl, rfl⟩

/-- C8 amended: whenever the liveness probe exits nonzero and `dry_run` is
false, session construction raises `ValueError` with message "Docker daemon
is not running". -/
theorem daemon_probe_failure_raises_valueerror (defTok : String) (cfg : Config)
    (w : World) (hdry : cfg.dry_run = false)
    (hexit : w.exitCode docker_info_cmd ≠ 0) :
    (initSession defTok cfg w).1 =
      .error (.valueError "Docker daemon is not running") := by
  unfold initSession _check_docker_daemon
  simp [hdry, hexit]

/-- Witness for the amended C8 theorem at the concrete config and the
everything-fails world. -/
theorem daemon_probe_failure_witness :
    (initSession "tok" exConfig wDown).1 =
      .error (.valueError "Docker daemon is not running") :=
  daemon_probe_failure_raises_valueerror "tok" exConfig wDown rfl (by decide)

/-- C10: the default of the `container_name` parameter is the
`uuid.uuid4().hex` expression in the `def __init__` line, which Python
evaluates once when the class body is executed; every construction in the
same process that omits the argument therefore receives the **same** token,
not a fresh one. -/
theorem default_container_name_is_shared (defTok : String) (c1 c2 : Config)
    (h1 : c1.container_name = none) (h2 : c2.container_name = none) :
    (mkSession defTok c1).container_name = (mkSession defTok c2).container_name := by
  simp [mkSession, h1, h2]

/-- Model of `exConfig` with the container name omitted. -/
def c10ConfigA : Config := { exConfig with container_name := none }

/-- A second, different configuration with the container name omitted. -/
def c10ConfigB : Config :=
  { exConfig with container_name := none, src := "/data/submission13" }

/-- Witness for C10: two distinct configurations constructed in the same
process end up with the same container name. -/
theorem default_container_name_witness :
    (mkSession "3f2e" c10ConfigA).container_name =
      (mkSession "3f2e" c10ConfigB).container_name :=
  default_container_name_is_shared "3f2e" c10ConfigA c10ConfigB rfl rfl

/-- Helper for C5: the script `_run` hands to `bash -c` decomposes as the
`cgroup.procs` PID write, then `" && "`, then the privilege drop around the
`timeout`-wrapped run command with the default fallback `5 × time_limit`. -/
theorem run_script_decomposition (s : Session) (rc f : String) (i : Nat) :
    run_script s rc i (some f) none =
      specPidWrite i ++ " && " ++
        specDropPriv s.non_root_user
          (specTimeoutWrap (5 * s.constraints.time_limit) rc f) := by
  have hlit : ("/cgroup.procs && su - " : String) =
      "/cgroup.procs" ++ " && " ++ "su - " := rfl
  unfold run_script specPidWrite specDropPriv specTimeoutWrap
  dsimp only [Option.getD_some]
  rw [Nat.mul_comm 5 s.constraints.time_limit, hlit]
  simp only [String.append_assoc]

/-- C5: for every session, run command, test index and explicit input file,
the script that `bash -c` executes inside the container (extracted from the
argv `_run` builds) is exactly: write the PID of the shell itself into
`/sys/fs/cgroup/test<i>/cgroup.procs`, then `su` to the non-root user running
`timeout <5 x time_limit> <run_command> < <input_file>`.  Concretely, test 1
of the example session spawns exactly the cgroup creation, the limit write,
this composed command, and the three counter reads. -/
theorem run_command_pid_join_then_drop :
    (∀ (s : Session) (rc f : String) (i : Nat),
        dockerExecBashScript (run_docker_cmd s rc i (some f) none) =
          some (specPidWrite i ++ " && " ++
            specDropPriv s.non_root_user
              (specTimeoutWrap (5 * s.constraints.time_limit) rc f))) ∧
    spawns (_run exSession exRun 1 (some "/app/input/input1.txt") none wOK).2 =
      [create_cgroup_cmd exSession "test1",
       set_limits_cmd exSession "test1",
       run_docker_cmd exSession exRun 1 (some "/app/input/input1.txt") none,
       memory_peak_cmd exSession "test1",
       memory_events_cmd exSession "test1",
       cpu_stat_cmd exSession "test1"] := by
  refine ⟨fun s rc f i => ?_, rfl⟩
  simp only [run_docker_cmd, dockerExecBashScript]
  rw [run_script_decomposition]

/-- Helper for C9: in dry-run mode `_run` prints the three rendered commands
and returns the placeholder tuple. -/
theorem run_single_dry (s : Session) (rc : String) (i : Nat) (f : Option String)
    (t : Option Nat) (w : World) (h : s.dry_run = true) :
    _run s rc i f t w =
      (.ok ⟨"<stdout>", "<stderr>", 0⟩,
       [.printCmd (create_cgroup_cmd s ("test" ++ toString i)),
        .printCmd (set_limits_cmd s ("test" ++ toString i)),
        .printCmd (run_docker_cmd s rc i f t)]) := by
  unfold _run _create_cgroup _set_limits
  simp [h]

/-- Helper for C9: in dry-run mode iterating any index list yields one
placeholder per index and spawns nothing. -/
theorem runFrom_dry (s : Session) (rc ip : String) (t : Option Nat) (w : World)
    (h : s.dry_run = true) :
    ∀ l, (runFrom s rc ip t w l).1 =
        .ok (l.map fun _ => (⟨"<stdout>", "<stderr>", 0⟩ : RunResult)) ∧
      spawns (runFrom s rc ip t w l).2 = []
  | [] => ⟨rfl, rfl⟩
  | i :: rest => by
    obtain ⟨ih1, ih2⟩ := runFrom_dry s rc ip t w h rest
    unfold runFrom
    simp only [run_single_dry s rc i, h]
    revert ih1 ih2
    cases hr : runFrom s rc ip t w rest with
    | mk fst snd =>
      intro ih1 ih2
      dsimp only at ih1 ih2 ⊢
      rw [ih1]
      refine ⟨rfl, ?_⟩
      simp only [spawns, List.filterMap_append] at ih2 ⊢
      simp [ih2]

/-- C9: with `dry_run` set, no operation of the executor spawns an external
process — daemon probe, container creation and teardown, every cgroup
operation, compilation, stats reads and the per-test run all only print the
rendered command — and `run` still yields one placeholder result
`("<stdout>", "<stderr>", 0)` per file of the input directory listing. -/
theorem dry_run_never_spawns :
    (∀ (w : World), spawns (_check_docker_daemon true w).2 = []) ∧
    (∀ (s : Session) (w : World),
        spawns (_create_container { s with dry_run := true } w).2 = []) ∧
    (∀ (s : Session) (w : World),
        spawns (_cleanup_container { s with dry_run := true } w).2 = []) ∧
    (∀ (s : Session) (idf : String) (w : World),
        spawns (_create_cgroup { s with dry_run := true } idf w).2 = []) ∧
    (∀ (s : Session) (w : World),
        spawns (_prepare_cgroup { s with dry_run := true } w).2 = []) ∧
    (∀ (s : Session) (idf : String) (w : World),
        spawns (_set_limits { s with dry_run := true } idf w).2 = []) ∧
    (∀ (s : Session) (cc : String) (w : World),
        spawns (_compile { s with dry_run := true } cc w).2 = []) ∧
    (∀ (s : Session) (idf : String) (w : World),
        spawns (_get_stats { s with dry_run := true } idf w) = []) ∧
    (∀ (s : Session) (rc : String) (i : Nat) (f : Option String) (t : Option Nat)
        (w : World),
        (_run { s with dry_run := true } rc i f t w).1 =
          .ok ⟨"<stdout>", "<stderr>", 0⟩ ∧
        spawns (_run { s with dry_run := true } rc i f t w).2 = []) ∧
    (∀ (s : Session) (rc ip : String) (t : Option Nat) (w : World),
        (run { s with dry_run := true } rc ip t w).1 =
          .ok (List.replicate w.inputListing.length ⟨"<stdout>", "<stderr>", 0⟩) ∧
        spawns (run { s with dry_run := true } rc ip t w).2 = []) := by
  refine ⟨fun w => rfl, fun s w => rfl, fun s w => rfl, fun s idf w => rfl,
    fun s w => rfl, fun s idf w => rfl, fun s cc w => ?_, fun s idf w => rfl,
    fun s rc i f t w => ⟨rfl, rfl⟩, fun s rc ip t w => ?_⟩
  · unfold _compile
    split
    · rfl
    · rfl
  · obtain ⟨h1, h2⟩ :=
      runFrom_dry { s with dry_run := true } rc ip t w rfl
        (List.range' 1 w.inputListing.length)
    refine ⟨?_, h2⟩
    unfold run
    rw [h1]
    simp [List.map_const', List.length_range']

/-! ## C4 machinery: the engine never spawns a cgroup-removal command -/

/-- A trace containing no cgroup-removal spawn. -/
def rmdirFree (evs : List Event) : Prop := evs.filter isRmdirSpawn = []

/-- The empty trace is removal-free. -/
theorem rmdirFree_nil : rmdirFree [] := rfl

/-- Concatenation preserves removal-freedom. -/
theorem rmdirFree_append {a b : List Event} (ha : rmdirFree a) (hb : rmdirFree b) :
    rmdirFree (a ++ b) := by
  unfold rmdirFree at ha hb ⊢
  rw [List.filter_append, ha, hb]
  rfl

/-- Prepending a non-removal event preserves removal-freedom. -/
theorem rmdirFree_cons {e : Event} {l : List Event} (he : isRmdirSpawn e = false)
    (hl : rmdirFree l) : rmdirFree (e :: l) := by
  unfold rmdirFree at hl ⊢
  rw [List.filter_cons, he]
  simpa using hl

/-- Model of `_check_docker_daemon` never spawns a removal. -/
theorem rmdirFree_check (d : Bool) (w : World) :
    rmdirFree (_check_docker_daemon d w).2 := by
  unfold _check_docker_daemon
  split
  · rfl
  · split
    · rfl
    · rfl

/-- Model of `_create_container` never spawns a removal. -/
theorem rmdirFree_create_container (s : Session) (w : World) :
    rmdirFree (_create_container s w).2 := by
  unfold _create_container
  split
  · rfl
  · split
    · rfl
    · rfl

/-- Model of `__init__` never spawns a removal. -/
theorem rmdirFree_initSession (tok : String) (cfg : Config) (w : World) :
    rmdirFree (initSession tok cfg w).2 := by
  unfold initSession
  have h0 := rmdirFree_check cfg.dry_run w
  cases hc : _check_docker_daemon cfg.dry_run w with
  | mk r ev =>
    rw [hc] at h0
    cases r with
    | error e => exact h0
    | ok u =>
      dsimp only
      split
      · exact h0
      · have h1 := rmdirFree_create_container (mkSession tok cfg) w
        cases hcc : _create_container (mkSession tok cfg) w with
        | mk r1 ev1 =>
          rw [hcc] at h1
          cases r1 with
          | error e => exact rmdirFree_append h0 h1
          | ok s1 => exact rmdirFree_append h0 h1

/-- Model of `_create_cgroup` never spawns a removal (its verb is `mkdir`). -/
theorem rmdirFree_create_cgroup (s : Session) (idf : String) (w : World) :
    rmdirFree (_create_cgroup s idf w).2 := by
  unfold _create_cgroup
  split
  · rfl
  · split
    · rfl
    · rfl

/-- Model of `_prepare_cgroup` never spawns a removal. -/
theorem rmdirFree_prepare_cgroup (s : Session) (w : World) :
    rmdirFree (_prepare_cgroup s w).2 := by
  unfold _prepare_cgroup
  split
  · rfl
  · split
    · have h1 := rmdirFree_create_cgroup s "parent" w
      cases hc : _create_cgroup s "parent" w with
      | mk r ev =>
        rw [hc] at h1
        cases r with
        | error e => exact rmdirFree_cons rfl h1
        | ok u =>
          dsimp only
          split
          · exact rmdirFree_cons rfl
              (rmdirFree_append h1 (by rfl))
          · exact rmdirFree_cons rfl
              (rmdirFree_append h1 (by rfl))
    · rfl

/-- Model of `_set_limits` never spawns a removal. -/
theorem rmdirFree_set_limits (s : Session) (idf : String) (w : World) :
    rmdirFree (_set_limits s idf w).2 := by
  unfold _set_limits
  split
  · rfl
  · split
    · rfl
    · rfl

/-- Model of `_compile` never spawns a removal. -/
theorem rmdirFree_compile (s : Session) (cc : String) (w : World) :
    rmdirFree (_compile s cc w).2 := by
  unfold _compile
  split
  · rfl
  · split
    · rfl
    · split
      · rfl
      · rfl

/-- Model of `__exit__` never spawns a removal. -/
theorem rmdirFree_exit (s : Session) (w : World) (exc : Option PyErr) :
    rmdirFree (_exit s w exc).2 := by
  unfold _exit _cleanup_container
  split
  · rfl
  · split
    · rfl
    · rfl

/-- Model of `_run` never spawns a removal. -/
theorem rmdirFree_run_single (s : Session) (rc : String) (i : Nat)
    (f : Option String) (t : Option Nat) (w : World) :
    rmdirFree (_run s rc i f t w).2 := by
  unfold _run
  have h1 := rmdirFree_create_cgroup s ("test" ++ toString i) w
  cases hc : _create_cgroup s ("test" ++ toString i) w with
  | mk r ev =>
    rw [hc] at h1
    cases r with
    | error e => exact h1
    | ok u =>
      have h2 := rmdirFree_set_limits s ("test" ++ toString i) w
      cases hs : _set_limits s ("test" ++ toString i) w with
      | mk r2 ev2 =>
        rw [hs] at h2
        cases r2 with
        | error e => exact rmdirFree_append h1 h2
        | ok u2 =>
          dsimp only
          split
          · exact rmdirFree_append (rmdirFree_append h1 h2) (by rfl)
          · exact rmdirFree_append (rmdirFree_append h1 h2) (by rfl)

/-- Model of `runFrom` never spawns a removal. -/
theorem rmdirFree_runFrom (s : Session) (rc ip : String) (t : Option Nat)
    (w : World) : ∀ l, rmdirFree (runFrom s rc ip t w l).2
  | [] => rmdirFree_nil
  | i :: rest => by
    have ih := rmdirFree_runFrom s rc ip t w rest
    unfold runFrom
    dsimp only
    have h1 := rmdirFree_run_single s rc i
      (some (s.working_dir_in_container ++ "/input/" ++ ip ++ toString i ++ ".txt"))
      t w
    cases hr : _run s rc i
        (some (s.working_dir_in_container ++ "/input/" ++ ip ++ toString i ++ ".txt"))
        t w with
    | mk r ev =>
      rw [hr] at h1
      cases r with
      | error e => exact h1
      | ok u =>
        cases hrf : runFrom s rc ip t w rest with
        | mk r2 ev2 =>
          rw [hrf] at ih
          cases r2 with
          | error e => exact rmdirFree_append h1 ih
          | ok rs => exact rmdirFree_append h1 ih

/-- Model of `run` never spawns a removal. -/
theorem rmdirFree_run (s : Session) (rc ip : String) (t : Option Nat)
    (w : World) : rmdirFree (run s rc ip t w).2 := by
  unfold run
  exact rmdirFree_runFrom s rc ip t w _

/-- Model of `__enter__` never spawns a removal. -/
theorem rmdirFree_enter (s : Session) (cc : String) (w : World) :
    rmdirFree (_enter s cc w).2 := by
  unfold _enter
  have h1 : rmdirFree (if s.disable_compile then
      ((Except.ok s : Except PyErr Session), ([] : List Event))
    else _compile s cc w).2 := by
    split
    · exact rmdirFree_nil
    · exact rmdirFree_compile s cc w
  cases hc : (if s.disable_compile then
      ((Except.ok s : Except PyErr Session), ([] : List Event))
    else _compile s cc w) with
  | mk r ev =>
    rw [hc] at h1
    cases r with
    | error e => exact h1
    | ok s1 =>
      dsimp only
      have h2 := rmdirFree_prepare_cgroup s1 w
      cases hp : _prepare_cgroup s1 w with
      | mk r2 ev2 =>
        rw [hp] at h2
        cases r2 with
        | error e => exact rmdirFree_append h1 h2
        | ok u => exact rmdirFree_append h1 h2

/-- C4 counterexample: in the concrete all-successful two-test session, both
tests are processed, yet the complete scope trace contains no `rmdir` spawn
whatsoever, and the per-test cgroup directory of processed test 1 (as well as
`test2` and `parent`) is still present at session end. -/
theorem child_cgroups_remain_after_session :
    (run exSession exRun "input" none wOK).1 =
      .ok [⟨"", "", 0⟩, ⟨"", "", 0⟩] ∧
    (sessionEvents "0123abcd" exConfig exCompile exRun "input" none wOK).filter
        isRmdirSpawn = [] ∧
    cgroupDirsAfter
        (sessionEvents "0123abcd" exConfig exCompile exRun "input" none wOK) =
      ["/sys/fs/cgroup/parent", "/sys/fs/cgroup/test1", "/sys/fs/cgroup/test2"] ∧
    "/sys/fs/cgroup/test1" ∈ cgroupDirsAfter
        (sessionEvents "0123abcd" exConfig exCompile exRun "input" none wOK) := by
  refine ⟨rfl, rfl, rfl, by decide⟩

/-- C4 amended: for every configuration, command pair and world, the complete
session trace — construction, `__enter__`, full iteration, teardown — never
spawns a cgroup-removal command: per-test child cgroups are left in place by
the engine and disappear only with the container itself. -/
theorem session_never_removes_child_cgroups (tok : String) (cfg : Config)
    (cc rc ip : String) (t : Option Nat) (w : World) :
    rmdirFree (sessionEvents tok cfg cc rc ip t w) := by
  unfold sessionEvents
  have h0 := rmdirFree_initSession tok cfg w
  cases hi : initSession tok cfg w with
  | mk r ev =>
    rw [hi] at h0
    cases r with
    | error e => exact h0
    | ok s =>
      dsimp only
      have h1 := rmdirFree_enter s cc w
      cases he : _enter s cc w with
      | mk r1 ev1 =>
        rw [he] at h1
        cases r1 with
        | error e => exact rmdirFree_append h0 h1
        | ok s1 =>
          dsimp only
          have h2 := rmdirFree_run s1 rc ip t w
          cases hr : run s1 rc ip t w with
          | mk r2 ev2 =>
            rw [hr] at h2
            cases r2 with
            | error e =>
              exact rmdirFree_append
                (rmdirFree_append (rmdirFree_append h0 h1) h2)
                (rmdirFree_exit s1 w (some e))
            | ok rs =>
              exact rmdirFree_append
                (rmdirFree_append (rmdirFree_append h0 h1) h2)
                (rmdirFree_exit s1 w none)

end Arbiterx
